import Mathlib

/-!
Verification of the schema layer in
`super_agents/deep_research/reason_graph/schemas.py`.

The source file declares pydantic `BaseModel` record types with no extra
configuration, so each model has pydantic's default behaviour:

* constructing a model from keyword arguments and validating a parsed JSON
  object run the same per-field validation, so both are embedded as one
  function `fromFields : Fields → Except ValidationError T` (and
  `fromJson` on a whole JSON value);
* a missing required field, a value of the wrong type, or a value outside a
  `Literal[...]` enumeration raises `ValidationError` (embedded as the
  `.error` branch of `Except`);
* keys not declared on the model are ignored (pydantic default
  `extra = "ignore"`);
* a field declared `Optional[T] = Field(default=d)` yields `d` when the key
  is absent and `None` when the key is explicitly `null`;
* serialization (`model_dump` / JSON encoding) emits every field, with
  `None` encoded as JSON `null`, embedded as `toFields : T → Fields`.

JSON numbers are embedded as exact rationals (`Rat`): the schema layer does
no floating-point arithmetic, it only checks that a value is numeric (for
`float` fields) or integral (for `int` fields), and both checks translate
exactly to `Rat`.
-/

/-- A JSON value: the wire format the schema layer validates and produces. -/
inductive Json where
  | null
  | bool (b : Bool)
  | num (q : Rat)
  | str (s : String)
  | arr (xs : List Json)
  | obj (fields : List (String × Json))

/-- The single error kind of the schema layer: pydantic's `ValidationError`,
recording the offending field and the kind of violation. -/
structure ValidationError where
  loc : String
  msg : String
deriving DecidableEq

/-- The key/value pairs of a JSON object (or of pydantic keyword arguments). -/
abbrev Fields := List (String × Json)

/-- First value bound to key `k`, as pydantic sees a parsed JSON object. -/
def lookupField (k : String) : Fields → Option Json
  | [] => none
  | (k', v) :: rest => if k' = k then some v else lookupField k rest

/-! ### Per-type JSON value validators (pydantic field type checks) -/

/-- Validate a `str` field value. -/
def jStr (k : String) : Json → Except ValidationError String
  | .str s => .ok s
  | _ => .error ⟨k, "string expected"⟩

/-- Validate an `int` field value: a JSON number with denominator 1. -/
def jInt (k : String) : Json → Except ValidationError Int
  | .num q => if q.den = 1 then .ok q.num else .error ⟨k, "integer expected"⟩
  | _ => .error ⟨k, "integer expected"⟩

/-- Validate a `float` field value: any JSON number. -/
def jNum (k : String) : Json → Except ValidationError Rat
  | .num q => .ok q
  | _ => .error ⟨k, "number expected"⟩

/-- Validate a `bool` field value. -/
def jBool (k : String) : Json → Except ValidationError Bool
  | .bool b => .ok b
  | _ => .error ⟨k, "boolean expected"⟩

/-- Validate a `Dict[str, Any]` field value: any JSON object, contents opaque. -/
def jDict (k : String) : Json → Except ValidationError Fields
  | .obj d => .ok d
  | _ => .error ⟨k, "object expected"⟩

/-- Validate each element of a JSON array with `p`. -/
def parseItems {α : Type} (p : Json → Except ValidationError α) :
    List Json → Except ValidationError (List α)
  | [] => .ok []
  | j :: rest =>
    match p j with
    | .error e => .error e
    | .ok a =>
      match parseItems p rest with
      | .error e => .error e
      | .ok as => .ok (a :: as)

/-- Validate a `List[T]` field value given the element validator. -/
def jList {α : Type} (k : String) (p : Json → Except ValidationError α) :
    Json → Except ValidationError (List α)
  | .arr xs => parseItems p xs
  | _ => .error ⟨k, "list expected"⟩

/-! ### Field getters: required and optional keys of an object -/

/-- A required field: absent key is a `ValidationError`, otherwise the value
is validated with `p`. -/
def reqF {α : Type} (fs : Fields) (k : String)
    (p : Json → Except ValidationError α) : Except ValidationError α :=
  match lookupField k fs with
  | none => .error ⟨k, "field required"⟩
  | some j => p j

/-- Whether a JSON value is `null` (the encoding of Python `None`). -/
def Json.isNull : Json → Bool
  | .null => true
  | _ => false

/-- An `Optional[T] = Field(default=None)` field: absent key or explicit
`null` is `none`; any other value must validate with `p`. -/
def optF {α : Type} (fs : Fields) (k : String)
    (p : Json → Except ValidationError α) : Except ValidationError (Option α) :=
  match lookupField k fs with
  | none => .ok none
  | some j =>
    if j.isNull then .ok none
    else
      match p j with
      | .error e => .error e
      | .ok a => .ok (some a)

/-! ### Enumerations (`Literal[...]` fields) -/

/-- `SearchQuery.source`: `Literal['web', 'academic', 'x', 'all']`. -/
inductive QuerySource where
  | web | academic | x | all
deriving DecidableEq

def QuerySource.ofString (s : String) : Option QuerySource :=
  if s = "web" then some .web
  else if s = "academic" then some .academic
  else if s = "x" then some .x
  else if s = "all" then some .all
  else none

def QuerySource.toStr : QuerySource → String
  | .web => "web"
  | .academic => "academic"
  | .x => "x"
  | .all => "all"

/-- `Literal['web', 'academic', 'x']` of `SearchResultItem.source` and
`SearchStepResult.type`. -/
inductive ResultSource where
  | web | academic | x
deriving DecidableEq

def ResultSource.ofString (s : String) : Option ResultSource :=
  if s = "web" then some .web
  else if s = "academic" then some .academic
  else if s = "x" then some .x
  else none

def ResultSource.toStr : ResultSource → String
  | .web => "web"
  | .academic => "academic"
  | .x => "x"

/-- `StreamUpdateData.status`: `Literal['running', 'completed']`. -/
inductive Status where
  | running | completed
deriving DecidableEq

def Status.ofString (s : String) : Option Status :=
  if s = "running" then some .running
  else if s = "completed" then some .completed
  else none

def Status.toStr : Status → String
  | .running => "running"
  | .completed => "completed"

/-- Validate a `Literal[...]` field value through its string decoder. -/
def jEnum {α : Type} (k : String) (ofStr : String → Option α) :
    Json → Except ValidationError α
  | .str s =>
    match ofStr s with
    | some a => .ok a
    | none => .error ⟨k, "unexpected value"⟩
  | _ => .error ⟨k, "string expected"⟩

/-! ### Record: SearchQuery -/

/-- `class SearchQuery(BaseModel)`: query, rationale, source, priority. -/
structure SearchQuery where
  query : String
  rationale : String
  source : QuerySource
  priority : Int
deriving DecidableEq

def SearchQuery.fromFields (fs : Fields) : Except ValidationError SearchQuery :=
  match reqF fs "query" (jStr "query") with
  | .error e => .error e
  | .ok query =>
  match reqF fs "rationale" (jStr "rationale") with
  | .error e => .error e
  | .ok rationale =>
  match reqF fs "source" (jEnum "source" QuerySource.ofString) with
  | .error e => .error e
  | .ok source =>
  match reqF fs "priority" (jInt "priority") with
  | .error e => .error e
  | .ok priority => .ok ⟨query, rationale, source, priority⟩

def SearchQuery.fromJson : Json → Except ValidationError SearchQuery
  | .obj fs => SearchQuery.fromFields fs
  | _ => .error ⟨"SearchQuery", "object expected"⟩

def SearchQuery.toFields (r : SearchQuery) : Fields :=
  [("query", .str r.query), ("rationale", .str r.rationale),
   ("source", .str r.source.toStr), ("priority", .num (r.priority : Rat))]

def SearchQuery.toJson (r : SearchQuery) : Json := .obj r.toFields

/-- Serialize an `Optional[T]` value: `None` encodes as JSON `null`. -/
def optJson {α : Type} (t : α → Json) : Option α → Json
  | none => .null
  | some a => t a

/-! ### Record: RequiredAnalysis -/

/-- `class RequiredAnalysis(BaseModel)`: type, description, importance. -/
structure RequiredAnalysis where
  type : String
  description : String
  importance : Int
deriving DecidableEq

def RequiredAnalysis.fromFields (fs : Fields) :
    Except ValidationError RequiredAnalysis :=
  match reqF fs "type" (jStr "type") with
  | .error e => .error e
  | .ok type =>
  match reqF fs "description" (jStr "description") with
  | .error e => .error e
  | .ok description =>
  match reqF fs "importance" (jInt "importance") with
  | .error e => .error e
  | .ok importance => .ok ⟨type, description, importance⟩

def RequiredAnalysis.fromJson : Json → Except ValidationError RequiredAnalysis
  | .obj fs => RequiredAnalysis.fromFields fs
  | _ => .error ⟨"RequiredAnalysis", "object expected"⟩

def RequiredAnalysis.toFields (r : RequiredAnalysis) : Fields :=
  [("type", .str r.type), ("description", .str r.description),
   ("importance", .num (r.importance : Rat))]

def RequiredAnalysis.toJson (r : RequiredAnalysis) : Json := .obj r.toFields

/-! ### Record: ResearchPlan -/

/-- `class ResearchPlan(BaseModel)`: search_queries, required_analyses. -/
structure ResearchPlan where
  search_queries : List SearchQuery
  required_analyses : List RequiredAnalysis
deriving DecidableEq

def ResearchPlan.fromFields (fs : Fields) : Except ValidationError ResearchPlan :=
  match reqF fs "search_queries" (jList "search_queries" SearchQuery.fromJson) with
  | .error e => .error e
  | .ok search_queries =>
  match reqF fs "required_analyses"
      (jList "required_analyses" RequiredAnalysis.fromJson) with
  | .error e => .error e
  | .ok required_analyses => .ok ⟨search_queries, required_analyses⟩

def ResearchPlan.fromJson : Json → Except ValidationError ResearchPlan
  | .obj fs => ResearchPlan.fromFields fs
  | _ => .error ⟨"ResearchPlan", "object expected"⟩

def ResearchPlan.toFields (r : ResearchPlan) : Fields :=
  [("search_queries", .arr (r.search_queries.map SearchQuery.toJson)),
   ("required_analyses", .arr (r.required_analyses.map RequiredAnalysis.toJson))]

def ResearchPlan.toJson (r : ResearchPlan) : Json := .obj r.toFields

/-! ### Record: SearchResultItem -/

/-- `class SearchResultItem(BaseModel)`: source, title, url, content,
optional tweetId. -/
structure SearchResultItem where
  source : ResultSource
  title : String
  url : String
  content : String
  tweetId : Option String
deriving DecidableEq

def SearchResultItem.fromFields (fs : Fields) :
    Except ValidationError SearchResultItem :=
  match reqF fs "source" (jEnum "source" ResultSource.ofString) with
  | .error e => .error e
  | .ok source =>
  match reqF fs "title" (jStr "title") with
  | .error e => .error e
  | .ok title =>
  match reqF fs "url" (jStr "url") with
  | .error e => .error e
  | .ok url =>
  match reqF fs "content" (jStr "content") with
  | .error e => .error e
  | .ok content =>
  match optF fs "tweetId" (jStr "tweetId") with
  | .error e => .error e
  | .ok tweetId => .ok ⟨source, title, url, content, tweetId⟩

def SearchResultItem.fromJson : Json → Except ValidationError SearchResultItem
  | .obj fs => SearchResultItem.fromFields fs
  | _ => .error ⟨"SearchResultItem", "object expected"⟩

def SearchResultItem.toFields (r : SearchResultItem) : Fields :=
  [("source", .str r.source.toStr), ("title", .str r.title),
   ("url", .str r.url), ("content", .str r.content),
   ("tweetId", optJson Json.str r.tweetId)]

def SearchResultItem.toJson (r : SearchResultItem) : Json := .obj r.toFields

/-! ### Record: SearchStepResult -/

/-- `class SearchStepResult(BaseModel)`: type, query, results. -/
structure SearchStepResult where
  type : ResultSource
  query : SearchQuery
  results : List SearchResultItem
deriving DecidableEq

def SearchStepResult.fromFields (fs : Fields) :
    Except ValidationError SearchStepResult :=
  match reqF fs "type" (jEnum "type" ResultSource.ofString) with
  | .error e => .error e
  | .ok type =>
  match reqF fs "query" SearchQuery.fromJson with
  | .error e => .error e
  | .ok query =>
  match reqF fs "results" (jList "results" SearchResultItem.fromJson) with
  | .error e => .error e
  | .ok results => .ok ⟨type, query, results⟩

def SearchStepResult.fromJson : Json → Except ValidationError SearchStepResult
  | .obj fs => SearchStepResult.fromFields fs
  | _ => .error ⟨"SearchStepResult", "object expected"⟩

def SearchStepResult.toFields (r : SearchStepResult) : Fields :=
  [("type", .str r.type.toStr), ("query", r.query.toJson),
   ("results", .arr (r.results.map SearchResultItem.toJson))]

def SearchStepResult.toJson (r : SearchStepResult) : Json := .obj r.toFields

/-! ### Record: AnalysisFinding -/

/-- `class AnalysisFinding(BaseModel)`: insight, evidence, confidence. -/
structure AnalysisFinding where
  insight : String
  evidence : List String
  confidence : Rat
deriving DecidableEq

def AnalysisFinding.fromFields (fs : Fields) :
    Except ValidationError AnalysisFinding :=
  match reqF fs "insight" (jStr "insight") with
  | .error e => .error e
  | .ok insight =>
  match reqF fs "evidence" (jList "evidence" (jStr "evidence")) with
  | .error e => .error e
  | .ok evidence =>
  match reqF fs "confidence" (jNum "confidence") with
  | .error e => .error e
  | .ok confidence => .ok ⟨insight, evidence, confidence⟩

def AnalysisFinding.fromJson : Json → Except ValidationError AnalysisFinding
  | .obj fs => AnalysisFinding.fromFields fs
  | _ => .error ⟨"AnalysisFinding", "object expected"⟩

def AnalysisFinding.toFields (r : AnalysisFinding) : Fields :=
  [("insight", .str r.insight), ("evidence", .arr (r.evidence.map Json.str)),
   ("confidence", .num r.confidence)]

def AnalysisFinding.toJson (r : AnalysisFinding) : Json := .obj r.toFields

/-! ### Record: AnalysisResult -/

/-- `class AnalysisResult(BaseModel)`: findings, implications, limitations. -/
structure AnalysisResult where
  findings : List AnalysisFinding
  implications : List String
  limitations : List String
deriving DecidableEq

def AnalysisResult.fromFields (fs : Fields) :
    Except ValidationError AnalysisResult :=
  match reqF fs "findings" (jList "findings" AnalysisFinding.fromJson) with
  | .error e => .error e
  | .ok findings =>
  match reqF fs "implications" (jList "implications" (jStr "implications")) with
  | .error e => .error e
  | .ok implications =>
  match reqF fs "limitations" (jList "limitations" (jStr "limitations")) with
  | .error e => .error e
  | .ok limitations => .ok ⟨findings, implications, limitations⟩

def AnalysisResult.fromJson : Json → Except ValidationError AnalysisResult
  | .obj fs => AnalysisResult.fromFields fs
  | _ => .error ⟨"AnalysisResult", "object expected"⟩

def AnalysisResult.toFields (r : AnalysisResult) : Fields :=
  [("findings", .arr (r.findings.map AnalysisFinding.toJson)),
   ("implications", .arr (r.implications.map Json.str)),
   ("limitations", .arr (r.limitations.map Json.str))]

def AnalysisResult.toJson (r : AnalysisResult) : Json := .obj r.toFields

/-! ### Record: Limitation -/

/-- `class Limitation(BaseModel)`: type, description, severity,
potential_solutions. -/
structure Limitation where
  type : String
  description : String
  severity : Int
  potential_solutions : List String
deriving DecidableEq

def Limitation.fromFields (fs : Fields) : Except ValidationError Limitation :=
  match reqF fs "type" (jStr "type") with
  | .error e => .error e
  | .ok type =>
  match reqF fs "description" (jStr "description") with
  | .error e => .error e
  | .ok description =>
  match reqF fs "severity" (jInt "severity") with
  | .error e => .error e
  | .ok severity =>
  match reqF fs "potential_solutions"
      (jList "potential_solutions" (jStr "potential_solutions")) with
  | .error e => .error e
  | .ok potential_solutions =>
    .ok ⟨type, description, severity, potential_solutions⟩

def Limitation.fromJson : Json → Except ValidationError Limitation
  | .obj fs => Limitation.fromFields fs
  | _ => .error ⟨"Limitation", "object expected"⟩

def Limitation.toFields (r : Limitation) : Fields :=
  [("type", .str r.type), ("description", .str r.description),
   ("severity", .num (r.severity : Rat)),
   ("potential_solutions", .arr (r.potential_solutions.map Json.str))]

def Limitation.toJson (r : Limitation) : Json := .obj r.toFields

/-! ### Record: KnowledgeGap -/

/-- `class KnowledgeGap(BaseModel)`: topic, reason, additional_queries. -/
structure KnowledgeGap where
  topic : String
  reason : String
  additional_queries : List String
deriving DecidableEq

def KnowledgeGap.fromFields (fs : Fields) : Except ValidationError KnowledgeGap :=
  match reqF fs "topic" (jStr "topic") with
  | .error e => .error e
  | .ok topic =>
  match reqF fs "reason" (jStr "reason") with
  | .error e => .error e
  | .ok reason =>
  match reqF fs "additional_queries"
      (jList "additional_queries" (jStr "additional_queries")) with
  | .error e => .error e
  | .ok additional_queries => .ok ⟨topic, reason, additional_queries⟩

def KnowledgeGap.fromJson : Json → Except ValidationError KnowledgeGap
  | .obj fs => KnowledgeGap.fromFields fs
  | _ => .error ⟨"KnowledgeGap", "object expected"⟩

def KnowledgeGap.toFields (r : KnowledgeGap) : Fields :=
  [("topic", .str r.topic), ("reason", .str r.reason),
   ("additional_queries", .arr (r.additional_queries.map Json.str))]

def KnowledgeGap.toJson (r : KnowledgeGap) : Json := .obj r.toFields

/-! ### Record: RecommendedFollowup -/

/-- `class RecommendedFollowup(BaseModel)`: action, rationale, priority. -/
structure RecommendedFollowup where
  action : String
  rationale : String
  priority : Int
deriving DecidableEq

def RecommendedFollowup.fromFields (fs : Fields) :
    Except ValidationError RecommendedFollowup :=
  match reqF fs "action" (jStr "action") with
  | .error e => .error e
  | .ok action =>
  match reqF fs "rationale" (jStr "rationale") with
  | .error e => .error e
  | .ok rationale =>
  match reqF fs "priority" (jInt "priority") with
  | .error e => .error e
  | .ok priority => .ok ⟨action, rationale, priority⟩

def RecommendedFollowup.fromJson :
    Json → Except ValidationError RecommendedFollowup
  | .obj fs => RecommendedFollowup.fromFields fs
  | _ => .error ⟨"RecommendedFollowup", "object expected"⟩

def RecommendedFollowup.toFields (r : RecommendedFollowup) : Fields :=
  [("action", .str r.action), ("rationale", .str r.rationale),
   ("priority", .num (r.priority : Rat))]

def RecommendedFollowup.toJson (r : RecommendedFollowup) : Json := .obj r.toFields

/-! ### Record: GapAnalysisResult -/

/-- `class GapAnalysisResult(BaseModel)`: limitations, knowledge_gaps,
recommended_followup. -/
structure GapAnalysisResult where
  limitations : List Limitation
  knowledge_gaps : List KnowledgeGap
  recommended_followup : List RecommendedFollowup
deriving DecidableEq

def GapAnalysisResult.fromFields (fs : Fields) :
    Except ValidationError GapAnalysisResult :=
  match reqF fs "limitations" (jList "limitations" Limitation.fromJson) with
  | .error e => .error e
  | .ok limitations =>
  match reqF fs "knowledge_gaps" (jList "knowledge_gaps" KnowledgeGap.fromJson) with
  | .error e => .error e
  | .ok knowledge_gaps =>
  match reqF fs "recommended_followup"
      (jList "recommended_followup" RecommendedFollowup.fromJson) with
  | .error e => .error e
  | .ok recommended_followup =>
    .ok ⟨limitations, knowledge_gaps, recommended_followup⟩

def GapAnalysisResult.fromJson : Json → Except ValidationError GapAnalysisResult
  | .obj fs => GapAnalysisResult.fromFields fs
  | _ => .error ⟨"GapAnalysisResult", "object expected"⟩

def GapAnalysisResult.toFields (r : GapAnalysisResult) : Fields :=
  [("limitations", .arr (r.limitations.map Limitation.toJson)),
   ("knowledge_gaps", .arr (r.knowledge_gaps.map KnowledgeGap.toJson)),
   ("recommended_followup",
    .arr (r.recommended_followup.map RecommendedFollowup.toJson))]

def GapAnalysisResult.toJson (r : GapAnalysisResult) : Json := .obj r.toFields

/-! ### Record: KeyFinding -/

/-- `class KeyFinding(BaseModel)`: finding, confidence, supporting_evidence. -/
structure KeyFinding where
  finding : String
  confidence : Rat
  supporting_evidence : List String
deriving DecidableEq

def KeyFinding.fromFields (fs : Fields) : Except ValidationError KeyFinding :=
  match reqF fs "finding" (jStr "finding") with
  | .error e => .error e
  | .ok finding =>
  match reqF fs "confidence" (jNum "confidence") with
  | .error e => .error e
  | .ok confidence =>
  match reqF fs "supporting_evidence"
      (jList "supporting_evidence" (jStr "supporting_evidence")) with
  | .error e => .error e
  | .ok supporting_evidence => .ok ⟨finding, confidence, supporting_evidence⟩

def KeyFinding.fromJson : Json → Except ValidationError KeyFinding
  | .obj fs => KeyFinding.fromFields fs
  | _ => .error ⟨"KeyFinding", "object expected"⟩

def KeyFinding.toFields (r : KeyFinding) : Fields :=
  [("finding", .str r.finding), ("confidence", .num r.confidence),
   ("supporting_evidence", .arr (r.supporting_evidence.map Json.str))]

def KeyFinding.toJson (r : KeyFinding) : Json := .obj r.toFields

/-! ### Record: FinalSynthesisResult -/

/-- `class FinalSynthesisResult(BaseModel)`: key_findings,
remaining_uncertainties. -/
structure FinalSynthesisResult where
  key_findings : List KeyFinding
  remaining_uncertainties : List String
deriving DecidableEq

def FinalSynthesisResult.fromFields (fs : Fields) :
    Except ValidationError FinalSynthesisResult :=
  match reqF fs "key_findings" (jList "key_findings" KeyFinding.fromJson) with
  | .error e => .error e
  | .ok key_findings =>
  match reqF fs "remaining_uncertainties"
      (jList "remaining_uncertainties" (jStr "remaining_uncertainties")) with
  | .error e => .error e
  | .ok remaining_uncertainties => .ok ⟨key_findings, remaining_uncertainties⟩

def FinalSynthesisResult.fromJson :
    Json → Except ValidationError FinalSynthesisResult
  | .obj fs => FinalSynthesisResult.fromFields fs
  | _ => .error ⟨"FinalSynthesisResult", "object expected"⟩

def FinalSynthesisResult.toFields (r : FinalSynthesisResult) : Fields :=
  [("key_findings", .arr (r.key_findings.map KeyFinding.toJson)),
   ("remaining_uncertainties", .arr (r.remaining_uncertainties.map Json.str))]

def FinalSynthesisResult.toJson (r : FinalSynthesisResult) : Json := .obj r.toFields

/-! ### Record: StepInfo -/

/-- `class StepInfo(BaseModel)`: id, type, details (an open `Dict[str, Any]`
whose contents the schema layer does not validate). -/
structure StepInfo where
  id : String
  type : String
  details : Fields

def StepInfo.fromFields (fs : Fields) : Except ValidationError StepInfo :=
  match reqF fs "id" (jStr "id") with
  | .error e => .error e
  | .ok id =>
  match reqF fs "type" (jStr "type") with
  | .error e => .error e
  | .ok type =>
  match reqF fs "details" (jDict "details") with
  | .error e => .error e
  | .ok details => .ok ⟨id, type, details⟩

def StepInfo.fromJson : Json → Except ValidationError StepInfo
  | .obj fs => StepInfo.fromFields fs
  | _ => .error ⟨"StepInfo", "object expected"⟩

def StepInfo.toFields (r : StepInfo) : Fields :=
  [("id", .str r.id), ("type", .str r.type), ("details", .obj r.details)]

def StepInfo.toJson (r : StepInfo) : Json := .obj r.toFields

/-! ### Record: StreamUpdateData -/

/-- `class StreamUpdateData(BaseModel)`: id, type, status, title, message,
timestamp, overwrite (default `False`), and twelve optional fields defaulting
to `None`. `findings` is `Optional[List[Dict]]`, so its elements are opaque
JSON objects. -/
structure StreamUpdateData where
  id : String
  type : String
  status : Status
  title : String
  message : String
  timestamp : Rat
  overwrite : Option Bool
  plan : Option ResearchPlan
  totalSteps : Option Int
  query : Option String
  results : Option (List SearchResultItem)
  analysisType : Option String
  findings : Option (List Fields)
  gaps : Option (List KnowledgeGap)
  recommendations : Option (List RecommendedFollowup)
  uncertainties : Option (List String)
  completedSteps : Option Int
  isComplete : Option Bool

/-- `overwrite: Optional[bool] = Field(default=False)`: an absent key yields
the default `False`, an explicit `null` yields `None`. -/
def overwriteF (fs : Fields) : Except ValidationError (Option Bool) :=
  match lookupField "overwrite" fs with
  | none => .ok (some false)
  | some j =>
    if j.isNull then .ok none
    else
      match jBool "overwrite" j with
      | .error e => .error e
      | .ok b => .ok (some b)

def StreamUpdateData.fromFields (fs : Fields) :
    Except ValidationError StreamUpdateData :=
  match reqF fs "id" (jStr "id") with
  | .error e => .error e
  | .ok id =>
  match reqF fs "type" (jStr "type") with
  | .error e => .error e
  | .ok type =>
  match reqF fs "status" (jEnum "status" Status.ofString) with
  | .error e => .error e
  | .ok status =>
  match reqF fs "title" (jStr "title") with
  | .error e => .error e
  | .ok title =>
  match reqF fs "message" (jStr "message") with
  | .error e => .error e
  | .ok message =>
  match reqF fs "timestamp" (jNum "timestamp") with
  | .error e => .error e
  | .ok timestamp =>
  match overwriteF fs with
  | .error e => .error e
  | .ok overwrite =>
  match optF fs "plan" ResearchPlan.fromJson with
  | .error e => .error e
  | .ok plan =>
  match optF fs "totalSteps" (jInt "totalSteps") with
  | .error e => .error e
  | .ok totalSteps =>
  match optF fs "query" (jStr "query") with
  | .error e => .error e
  | .ok query =>
  match optF fs "results" (jList "results" SearchResultItem.fromJson) with
  | .error e => .error e
  | .ok results =>
  match optF fs "analysisType" (jStr "analysisType") with
  | .error e => .error e
  | .ok analysisType =>
  match optF fs "findings" (jList "findings" (jDict "findings")) with
  | .error e => .error e
  | .ok findings =>
  match optF fs "gaps" (jList "gaps" KnowledgeGap.fromJson) with
  | .error e => .error e
  | .ok gaps =>
  match optF fs "recommendations"
      (jList "recommendations" RecommendedFollowup.fromJson) with
  | .error e => .error e
  | .ok recommendations =>
  match optF fs "uncertainties" (jList "uncertainties" (jStr "uncertainties")) with
  | .error e => .error e
  | .ok uncertainties =>
  match optF fs "completedSteps" (jInt "completedSteps") with
  | .error e => .error e
  | .ok completedSteps =>
  match optF fs "isComplete" (jBool "isComplete") with
  | .error e => .error e
  | .ok isComplete =>
    .ok ⟨id, type, status, title, message, timestamp, overwrite, plan,
      totalSteps, query, results, analysisType, findings, gaps,
      recommendations, uncertainties, completedSteps, isComplete⟩

def StreamUpdateData.fromJson : Json → Except ValidationError StreamUpdateData
  | .obj fs => StreamUpdateData.fromFields fs
  | _ => .error ⟨"StreamUpdateData", "object expected"⟩

def StreamUpdateData.toFields (r : StreamUpdateData) : Fields :=
  [("id", .str r.id), ("type", .str r.type), ("status", .str r.status.toStr),
   ("title", .str r.title), ("message", .str r.message),
   ("timestamp", .num r.timestamp),
   ("overwrite", optJson Json.bool r.overwrite),
   ("plan", optJson ResearchPlan.toJson r.plan),
   ("totalSteps", optJson (fun i : Int => .num (i : Rat)) r.totalSteps),
   ("query", optJson Json.str r.query),
   ("results", optJson (fun xs => .arr (xs.map SearchResultItem.toJson)) r.results),
   ("analysisType", optJson Json.str r.analysisType),
   ("findings", optJson (fun xs => .arr (xs.map Json.obj)) r.findings),
   ("gaps", optJson (fun xs => .arr (xs.map KnowledgeGap.toJson)) r.gaps),
   ("recommendations",
    optJson (fun xs => .arr (xs.map RecommendedFollowup.toJson)) r.recommendations),
   ("uncertainties", optJson (fun xs => .arr (xs.map Json.str)) r.uncertainties),
   ("completedSteps", optJson (fun i : Int => .num (i : Rat)) r.completedSteps),
   ("isComplete", optJson Json.bool r.isComplete)]

def StreamUpdateData.toJson (r : StreamUpdateData) : Json := .obj r.toFields

/-! ### Record: StreamUpdate -/

/-- `class StreamUpdate(BaseModel)`: type (`Literal['research_update']` with
default `'research_update'`) and data. -/
structure StreamUpdate where
  type : String
  data : StreamUpdateData

/-- `type: Literal['research_update'] = Field(default='research_update')`:
an absent key yields the default, any value other than the literal is a
`ValidationError`. -/
def updateTypeF (fs : Fields) : Except ValidationError String :=
  match lookupField "type" fs with
  | none => .ok "research_update"
  | some (.str s) =>
    if s = "research_update" then .ok s else .error ⟨"type", "unexpected value"⟩
  | some _ => .error ⟨"type", "string expected"⟩

def StreamUpdate.fromFields (fs : Fields) : Except ValidationError StreamUpdate :=
  match updateTypeF fs with
  | .error e => .error e
  | .ok type =>
  match reqF fs "data" StreamUpdateData.fromJson with
  | .error e => .error e
  | .ok data => .ok ⟨type, data⟩

def StreamUpdate.fromJson : Json → Except ValidationError StreamUpdate
  | .obj fs => StreamUpdate.fromFields fs
  | _ => .error ⟨"StreamUpdate", "object expected"⟩

def StreamUpdate.toFields (r : StreamUpdate) : Fields :=
  [("type", .str r.type), ("data", r.data.toJson)]

def StreamUpdate.toJson (r : StreamUpdate) : Json := .obj r.toFields

theorem querySource_ofString_toStr (s : QuerySource) :
    QuerySource.ofString s.toStr = some s := by
  cases s <;> rfl

theorem resultSource_ofString_toStr (s : ResultSource) :
    ResultSource.ofString s.toStr = some s := by
  cases s <;> rfl

theorem status_ofString_toStr (s : Status) :
    Status.ofString s.toStr = some s := by
  cases s <;> rfl

/-! ### Round-trip helper lemmas -/

theorem jStr_str (k s : String) : jStr k (.str s) = .ok s := rfl

theorem jInt_int (k : String) (i : Int) : jInt k (.num (i : Rat)) = .ok i := by
  simp [jInt]

theorem jNum_num (k : String) (q : Rat) : jNum k (.num q) = .ok q := rfl

theorem jBool_bool (k : String) (b : Bool) : jBool k (.bool b) = .ok b := rfl

theorem jDict_obj (k : String) (d : Fields) : jDict k (.obj d) = .ok d := rfl

theorem parseItems_map {α : Type} (p : Json → Except ValidationError α)
    (t : α → Json) (h : ∀ a, p (t a) = .ok a) :
    ∀ xs : List α, parseItems p (xs.map t) = .ok xs
  | [] => rfl
  | a :: xs => by
    simp [List.map, parseItems, h a, parseItems_map p t h xs]

theorem jList_map {α : Type} (k : String) (p : Json → Except ValidationError α)
    (t : α → Json) (h : ∀ a, p (t a) = .ok a) (xs : List α) :
    jList k p (.arr (xs.map t)) = .ok xs := by
  simp [jList, parseItems_map p t h xs]

/-- Evaluate an optional getter on a serialized optional field: since
serializers never encode a present value as `null`, the getter recovers
exactly the serialized option. -/
theorem optF_eval {α : Type} (fs : Fields) (k : String)
    (p : Json → Except ValidationError α) (t : α → Json) (v : Option α)
    (hl : lookupField k fs = some (optJson t v))
    (hn : ∀ a, (t a).isNull = false)
    (hp : ∀ a, p (t a) = .ok a) : optF fs k p = .ok v := by
  cases v with
  | none => simp [optF, hl, optJson, Json.isNull]
  | some a => simp [optF, hl, optJson, hn a, hp a]

theorem overwriteF_eval (fs : Fields) (v : Option Bool)
    (hl : lookupField "overwrite" fs = some (optJson Json.bool v)) :
    overwriteF fs = .ok v := by
  cases v with
  | none => simp [overwriteF, hl, optJson, Json.isNull]
  | some b => simp [overwriteF, hl, optJson, Json.isNull, jBool]

theorem searchQuery_roundtrip (r : SearchQuery) :
    SearchQuery.fromJson r.toJson = .ok r := by
  simp [SearchQuery.fromJson, SearchQuery.toJson, SearchQuery.toFields,
    SearchQuery.fromFields, reqF, lookupField, jStr, jEnum, jInt_int,
    querySource_ofString_toStr]

theorem requiredAnalysis_roundtrip (r : RequiredAnalysis) :
    RequiredAnalysis.fromJson r.toJson = .ok r := by
  simp [RequiredAnalysis.fromJson, RequiredAnalysis.toJson,
    RequiredAnalysis.toFields, RequiredAnalysis.fromFields, reqF, lookupField,
    jStr, jInt_int]

theorem researchPlan_roundtrip (r : ResearchPlan) :
    ResearchPlan.fromJson r.toJson = .ok r := by
  simp [ResearchPlan.fromJson, ResearchPlan.toJson, ResearchPlan.toFields,
    ResearchPlan.fromFields, reqF, lookupField,
    jList_map _ _ _ searchQuery_roundtrip,
    jList_map _ _ _ requiredAnalysis_roundtrip]

theorem searchResultItem_roundtrip (r : SearchResultItem) :
    SearchResultItem.fromJson r.toJson = .ok r := by
  have ht : optF r.toFields "tweetId" (jStr "tweetId") = .ok r.tweetId :=
    optF_eval _ _ _ Json.str _
      (by simp [SearchResultItem.toFields, lookupField])
      (fun _ => rfl) (fun _ => rfl)
  simp only [SearchResultItem.fromJson, SearchResultItem.toJson,
    SearchResultItem.fromFields, ht]
  simp [SearchResultItem.toFields, reqF, lookupField, jStr, jEnum,
    resultSource_ofString_toStr]

theorem searchStepResult_roundtrip (r : SearchStepResult) :
    SearchStepResult.fromJson r.toJson = .ok r := by
  simp [SearchStepResult.fromJson, SearchStepResult.toJson,
    SearchStepResult.toFields, SearchStepResult.fromFields, reqF, lookupField,
    jEnum, resultSource_ofString_toStr, searchQuery_roundtrip,
    jList_map _ _ _ searchResultItem_roundtrip]

theorem analysisFinding_roundtrip (r : AnalysisFinding) :
    AnalysisFinding.fromJson r.toJson = .ok r := by
  simp [AnalysisFinding.fromJson, AnalysisFinding.toJson,
    AnalysisFinding.toFields, AnalysisFinding.fromFields, reqF, lookupField,
    jStr, jNum, jList_map _ _ _ (jStr_str "evidence")]

theorem analysisResult_roundtrip (r : AnalysisResult) :
    AnalysisResult.fromJson r.toJson = .ok r := by
  simp [AnalysisResult.fromJson, AnalysisResult.toJson, AnalysisResult.toFields,
    AnalysisResult.fromFields, reqF, lookupField,
    jList_map _ _ _ analysisFinding_roundtrip,
    jList_map _ _ _ (jStr_str "implications"),
    jList_map _ _ _ (jStr_str "limitations")]

theorem limitation_roundtrip (r : Limitation) :
    Limitation.fromJson r.toJson = .ok r := by
  simp [Limitation.fromJson, Limitation.toJson, Limitation.toFields,
    Limitation.fromFields, reqF, lookupField, jStr, jInt_int,
    jList_map _ _ _ (jStr_str "potential_solutions")]

theorem knowledgeGap_roundtrip (r : KnowledgeGap) :
    KnowledgeGap.fromJson r.toJson = .ok r := by
  simp [KnowledgeGap.fromJson, KnowledgeGap.toJson, KnowledgeGap.toFields,
    KnowledgeGap.fromFields, reqF, lookupField, jStr,
    jList_map _ _ _ (jStr_str "additional_queries")]

theorem recommendedFollowup_roundtrip (r : RecommendedFollowup) :
    RecommendedFollowup.fromJson r.toJson = .ok r := by
  simp [RecommendedFollowup.fromJson, RecommendedFollowup.toJson,
    RecommendedFollowup.toFields, RecommendedFollowup.fromFields, reqF,
    lookupField, jStr, jInt_int]

theorem gapAnalysisResult_roundtrip (r : GapAnalysisResult) :
    GapAnalysisResult.fromJson r.toJson = .ok r := by
  simp [GapAnalysisResult.fromJson, GapAnalysisResult.toJson,
    GapAnalysisResult.toFields, GapAnalysisResult.fromFields, reqF, lookupField,
    jList_map _ _ _ limitation_roundtrip,
    jList_map _ _ _ knowledgeGap_roundtrip,
    jList_map _ _ _ recommendedFollowup_roundtrip]

theorem keyFinding_roundtrip (r : KeyFinding) :
    KeyFinding.fromJson r.toJson = .ok r := by
  simp [KeyFinding.fromJson, KeyFinding.toJson, KeyFinding.toFields,
    KeyFinding.fromFields, reqF, lookupField, jStr, jNum,
    jList_map _ _ _ (jStr_str "supporting_evidence")]

theorem finalSynthesisResult_roundtrip (r : FinalSynthesisResult) :
    FinalSynthesisResult.fromJson r.toJson = .ok r := by
  simp [FinalSynthesisResult.fromJson, FinalSynthesisResult.toJson,
    FinalSynthesisResult.toFields, FinalSynthesisResult.fromFields, reqF,
    lookupField, jList_map _ _ _ keyFinding_roundtrip,
    jList_map _ _ _ (jStr_str "remaining_uncertainties")]

theorem stepInfo_roundtrip (r : StepInfo) :
    StepInfo.fromJson r.toJson = .ok r := by
  simp [StepInfo.fromJson, StepInfo.toJson, StepInfo.toFields,
    StepInfo.fromFields, reqF, lookupField, jStr, jDict]

theorem streamUpdateData_roundtrip (r : StreamUpdateData) :
    StreamUpdateData.fromJson r.toJson = .ok r := by
  have hov : overwriteF r.toFields = .ok r.overwrite :=
    overwriteF_eval _ _ (by simp [StreamUpdateData.toFields, lookupField])
  have hplan : optF r.toFields "plan" ResearchPlan.fromJson = .ok r.plan :=
    optF_eval _ _ _ ResearchPlan.toJson _
      (by simp [StreamUpdateData.toFields, lookupField])
      (fun _ => rfl) researchPlan_roundtrip
  have htot : optF r.toFields "totalSteps" (jInt "totalSteps") = .ok r.totalSteps :=
    optF_eval _ _ _ (fun i : Int => .num (i : Rat)) _
      (by simp only [StreamUpdateData.toFields, lookupField, String.reduceEq,
        reduceIte])
      (fun _ => rfl) (jInt_int "totalSteps")
  have hq : optF r.toFields "query" (jStr "query") = .ok r.query :=
    optF_eval _ _ _ Json.str _
      (by simp [StreamUpdateData.toFields, lookupField])
      (fun _ => rfl) (fun _ => rfl)
  have hres : optF r.toFields "results"
      (jList "results" SearchResultItem.fromJson) = .ok r.results :=
    optF_eval _ _ _ (fun xs => .arr (xs.map SearchResultItem.toJson)) _
      (by simp [StreamUpdateData.toFields, lookupField])
      (fun _ => rfl) (jList_map _ _ _ searchResultItem_roundtrip)
  have han : optF r.toFields "analysisType" (jStr "analysisType") =
      .ok r.analysisType :=
    optF_eval _ _ _ Json.str _
      (by simp [StreamUpdateData.toFields, lookupField])
      (fun _ => rfl) (fun _ => rfl)
  have hfind : optF r.toFields "findings"
      (jList "findings" (jDict "findings")) = .ok r.findings :=
    optF_eval _ _ _ (fun xs => .arr (xs.map Json.obj)) _
      (by simp [StreamUpdateData.toFields, lookupField])
      (fun _ => rfl) (jList_map _ _ _ (jDict_obj "findings"))
  have hgaps : optF r.toFields "gaps"
      (jList "gaps" KnowledgeGap.fromJson) = .ok r.gaps :=
    optF_eval _ _ _ (fun xs => .arr (xs.map KnowledgeGap.toJson)) _
      (by simp [StreamUpdateData.toFields, lookupField])
      (fun _ => rfl) (jList_map _ _ _ knowledgeGap_roundtrip)
  have hrec : optF r.toFields "recommendations"
      (jList "recommendations" RecommendedFollowup.fromJson) =
      .ok r.recommendations :=
    optF_eval _ _ _ (fun xs => .arr (xs.map RecommendedFollowup.toJson)) _
      (by simp [StreamUpdateData.toFields, lookupField])
      (fun _ => rfl) (jList_map _ _ _ recommendedFollowup_roundtrip)
  have hunc : optF r.toFields "uncertainties"
      (jList "uncertainties" (jStr "uncertainties")) = .ok r.uncertainties :=
    optF_eval _ _ _ (fun xs => .arr (xs.map Json.str)) _
      (by simp [StreamUpdateData.toFields, lookupField])
      (fun _ => rfl) (jList_map _ _ _ (jStr_str "uncertainties"))
  have hcomp : optF r.toFields "completedSteps" (jInt "completedSteps") =
      .ok r.completedSteps :=
    optF_eval _ _ _ (fun i : Int => .num (i : Rat)) _
      (by simp only [StreamUpdateData.toFields, lookupField, String.reduceEq,
        reduceIte])
      (fun _ => rfl) (jInt_int "completedSteps")
  have hic : optF r.toFields "isComplete" (jBool "isComplete") =
      .ok r.isComplete :=
    optF_eval _ _ _ Json.bool _
      (by simp [StreamUpdateData.toFields, lookupField])
      (fun _ => rfl) (jBool_bool "isComplete")
  simp only [StreamUpdateData.fromJson, StreamUpdateData.toJson,
    StreamUpdateData.fromFields, hov, hplan, htot, hq, hres, han, hfind,
    hgaps, hrec, hunc, hcomp, hic]
  simp [StreamUpdateData.toFields, reqF, lookupField, jStr, jEnum, jNum,
    status_ofString_toStr]

theorem streamUpdate_roundtrip (r : StreamUpdate)
    (h : r.type = "research_update") :
    StreamUpdate.fromJson r.toJson = .ok r := by
  obtain ⟨ty, d⟩ := r
  replace h : ty = "research_update" := h
  subst h
  simp [StreamUpdate.fromJson, StreamUpdate.toJson, StreamUpdate.toFields,
    StreamUpdate.fromFields, updateTypeF, reqF, lookupField,
    streamUpdateData_roundtrip]

/-! ### Required fields are necessary for successful construction -/

theorem reqF_ok_lookup {α : Type} {fs : Fields} {k : String}
    {p : Json → Except ValidationError α} {a : α}
    (h : reqF fs k p = .ok a) : (lookupField k fs).isSome = true := by
  cases hl : lookupField k fs with
  | none => simp [reqF, hl] at h
  | some j => simp [hl]

theorem searchQuery_ok_required {fs : Fields} {r : SearchQuery}
    (h : SearchQuery.fromFields fs = .ok r) :
    (lookupField "query" fs).isSome = true ∧
    (lookupField "rationale" fs).isSome = true ∧
    (lookupField "source" fs).isSome = true ∧
    (lookupField "priority" fs).isSome = true := by
  unfold SearchQuery.fromFields at h
  repeat' split at h
  any_goals cases h
  exact ⟨reqF_ok_lookup (by assumption), reqF_ok_lookup (by assumption),
    reqF_ok_lookup (by assumption), reqF_ok_lookup (by assumption)⟩

theorem requiredAnalysis_ok_required {fs : Fields} {r : RequiredAnalysis}
    (h : RequiredAnalysis.fromFields fs = .ok r) :
    (lookupField "type" fs).isSome = true ∧
    (lookupField "description" fs).isSome = true ∧
    (lookupField "importance" fs).isSome = true := by
  unfold RequiredAnalysis.fromFields at h
  repeat' split at h
  any_goals cases h
  exact ⟨reqF_ok_lookup (by assumption), reqF_ok_lookup (by assumption), reqF_ok_lookup (by assumption)⟩

theorem researchPlan_ok_required {fs : Fields} {r : ResearchPlan}
    (h : ResearchPlan.fromFields fs = .ok r) :
    (lookupField "search_queries" fs).isSome = true ∧
    (lookupField "required_analyses" fs).isSome = true := by
  unfold ResearchPlan.fromFields at h
  repeat' split at h
  any_goals cases h
  exact ⟨reqF_ok_lookup (by assumption), reqF_ok_lookup (by assumption)⟩

theorem searchResultItem_ok_required {fs : Fields} {r : SearchResultItem}
    (h : SearchResultItem.fromFields fs = .ok r) :
    (lookupField "source" fs).isSome = true ∧
    (lookupField "title" fs).isSome = true ∧
    (lookupField "url" fs).isSome = true ∧
    (lookupField "content" fs).isSome = true := by
  unfold SearchResultItem.fromFields at h
  repeat' split at h
  any_goals cases h
  exact ⟨reqF_ok_lookup (by assumption), reqF_ok_lookup (by assumption), reqF_ok_lookup (by assumption), reqF_ok_lookup (by assumption)⟩

theorem searchStepResult_ok_required {fs : Fields} {r : SearchStepResult}
    (h : SearchStepResult.fromFields fs = .ok r) :
    (lookupField "type" fs).isSome = true ∧
    (lookupField "query" fs).isSome = true ∧
    (lookupField "results" fs).isSome = true := by
  unfold SearchStepResult.fromFields at h
  repeat' split at h
  any_goals cases h
  exact ⟨reqF_ok_lookup (by assumption), reqF_ok_lookup (by assumption), reqF_ok_lookup (by assumption)⟩

theorem analysisFinding_ok_required {fs : Fields} {r : AnalysisFinding}
    (h : AnalysisFinding.fromFields fs = .ok r) :
    (lookupField "insight" fs).isSome = true ∧
    (lookupField "evidence" fs).isSome = true ∧
    (lookupField "confidence" fs).isSome = true := by
  unfold AnalysisFinding.fromFields at h
  repeat' split at h
  any_goals cases h
  exact ⟨reqF_ok_lookup (by assumption), reqF_ok_lookup (by assumption), reqF_ok_lookup (by assumption)⟩

theorem analysisResult_ok_required {fs : Fields} {r : AnalysisResult}
    (h : AnalysisResult.fromFields fs = .ok r) :
    (lookupField "findings" fs).isSome = true ∧
    (lookupField "implications" fs).isSome = true ∧
    (lookupField "limitations" fs).isSome = true := by
  unfold AnalysisResult.fromFields at h
  repeat' split at h
  any_goals cases h
  exact ⟨reqF_ok_lookup (by assumption), reqF_ok_lookup (by assumption), reqF_ok_lookup (by assumption)⟩

theorem limitation_ok_required {fs : Fields} {r : Limitation}
    (h : Limitation.fromFields fs = .ok r) :
    (lookupField "type" fs).isSome = true ∧
    (lookupField "description" fs).isSome = true ∧
    (lookupField "severity" fs).isSome = true ∧
    (lookupField "potential_solutions" fs).isSome = true := by
  unfold Limitation.fromFields at h
  repeat' split at h
  any_goals cases h
  exact ⟨reqF_ok_lookup (by assumption), reqF_ok_lookup (by assumption), reqF_ok_lookup (by assumption), reqF_ok_lookup (by assumption)⟩

theorem knowledgeGap_ok_required {fs : Fields} {r : KnowledgeGap}
    (h : KnowledgeGap.fromFields fs = .ok r) :
    (lookupField "topic" fs).isSome = true ∧
    (lookupField "reason" fs).isSome = true ∧
    (lookupField "additional_queries" fs).isSome = true := by
  unfold KnowledgeGap.fromFields at h
  repeat' split at h
  any_goals cases h
  exact ⟨reqF_ok_lookup (by assumption), reqF_ok_lookup (by assumption), reqF_ok_lookup (by assumption)⟩

theorem recommendedFollowup_ok_required {fs : Fields} {r : RecommendedFollowup}
    (h : RecommendedFollowup.fromFields fs = .ok r) :
    (lookupField "action" fs).isSome = true ∧
    (lookupField "rationale" fs).isSome = true ∧
    (lookupField "priority" fs).isSome = true := by
  unfold RecommendedFollowup.fromFields at h
  repeat' split at h
  any_goals cases h
  exact ⟨reqF_ok_lookup (by assumption), reqF_ok_lookup (by assumption), reqF_ok_lookup (by assumption)⟩

theorem gapAnalysisResult_ok_required {fs : Fields} {r : GapAnalysisResult}
    (h : GapAnalysisResult.fromFields fs = .ok r) :
    (lookupField "limitations" fs).isSome = true ∧
    (lookupField "knowledge_gaps" fs).isSome = true ∧
    (lookupField "recommended_followup" fs).isSome = true := by
  unfold GapAnalysisResult.fromFields at h
  repeat' split at h
  any_goals cases h
  exact ⟨reqF_ok_lookup (by assumption), reqF_ok_lookup (by assumption), reqF_ok_lookup (by assumption)⟩

theorem keyFinding_ok_required {fs : Fields} {r : KeyFinding}
    (h : KeyFinding.fromFields fs = .ok r) :
    (lookupField "finding" fs).isSome = true ∧
    (lookupField "confidence" fs).isSome = true ∧
    (lookupField "supporting_evidence" fs).isSome = true := by
  unfold KeyFinding.fromFields at h
  repeat' split at h
  any_goals cases h
  exact ⟨reqF_ok_lookup (by assumption), reqF_ok_lookup (by assumption), reqF_ok_lookup (by assumption)⟩

theorem finalSynthesisResult_ok_required {fs : Fields} {r : FinalSynthesisResult}
    (h : FinalSynthesisResult.fromFields fs = .ok r) :
    (lookupField "key_findings" fs).isSome = true ∧
    (lookupField "remaining_uncertainties" fs).isSome = true := by
  unfold FinalSynthesisResult.fromFields at h
  repeat' split at h
  any_goals cases h
  exact ⟨reqF_ok_lookup (by assumption), reqF_ok_lookup (by assumption)⟩

theorem stepInfo_ok_required {fs : Fields} {r : StepInfo}
    (h : StepInfo.fromFields fs = .ok r) :
    (lookupField "id" fs).isSome = true ∧
    (lookupField "type" fs).isSome = true ∧
    (lookupField "details" fs).isSome = true := by
  unfold StepInfo.fromFields at h
  repeat' split at h
  any_goals cases h
  exact ⟨reqF_ok_lookup (by assumption), reqF_ok_lookup (by assumption), reqF_ok_lookup (by assumption)⟩

theorem streamUpdateData_ok_required {fs : Fields} {r : StreamUpdateData}
    (h : StreamUpdateData.fromFields fs = .ok r) :
    (lookupField "id" fs).isSome = true ∧
    (lookupField "type" fs).isSome = true ∧
    (lookupField "status" fs).isSome = true ∧
    (lookupField "title" fs).isSome = true ∧
    (lookupField "message" fs).isSome = true ∧
    (lookupField "timestamp" fs).isSome = true := by
  unfold StreamUpdateData.fromFields at h
  repeat' split at h
  any_goals cases h
  exact ⟨reqF_ok_lookup (by assumption), reqF_ok_lookup (by assumption), reqF_ok_lookup (by assumption), reqF_ok_lookup (by assumption), reqF_ok_lookup (by assumption), reqF_ok_lookup (by assumption)⟩

theorem streamUpdate_ok_required {fs : Fields} {r : StreamUpdate}
    (h : StreamUpdate.fromFields fs = .ok r) :
    (lookupField "data" fs).isSome = true := by
  unfold StreamUpdate.fromFields at h
  repeat' split at h
  any_goals cases h
  exact reqF_ok_lookup (by assumption)

/-! ### Unrecognized extra keys are ignored (forward-compatible parsing) -/

theorem lookupField_append (k : String) (extras fs : Fields)
    (h : ∀ p ∈ extras, p.1 ≠ k) :
    lookupField k (extras ++ fs) = lookupField k fs := by
  induction extras with
  | nil => rfl
  | cons p rest ih =>
    obtain ⟨k', v⟩ := p
    have hk : k' ≠ k := h (k', v) (List.mem_cons_self _ _)
    simp only [List.cons_append, lookupField, if_neg hk]
    exact ih fun q hq => h q (List.mem_cons_of_mem _ hq)

/-- Every key the `SearchQuery` validator reads. -/
def SearchQuery.fieldKeys : List String := ["query", "rationale", "source", "priority"]

theorem searchQuery_ignores_extras (extras fs : Fields)
    (h : ∀ p ∈ extras, p.1 ∉ SearchQuery.fieldKeys) :
    SearchQuery.fromFields (extras ++ fs) = SearchQuery.fromFields fs := by
  have L : ∀ k, k ∈ SearchQuery.fieldKeys →
      lookupField k (extras ++ fs) = lookupField k fs :=
    fun k hk => lookupField_append k extras fs
      (fun p hp hpk => (h p hp) (hpk ▸ hk))
  simp only [SearchQuery.fromFields, reqF,
    L "query" (by simp [SearchQuery.fieldKeys]),
    L "rationale" (by simp [SearchQuery.fieldKeys]),
    L "source" (by simp [SearchQuery.fieldKeys]),
    L "priority" (by simp [SearchQuery.fieldKeys])]

/-- Every key the `RequiredAnalysis` validator reads. -/
def RequiredAnalysis.fieldKeys : List String := ["type", "description", "importance"]

theorem requiredAnalysis_ignores_extras (extras fs : Fields)
    (h : ∀ p ∈ extras, p.1 ∉ RequiredAnalysis.fieldKeys) :
    RequiredAnalysis.fromFields (extras ++ fs) = RequiredAnalysis.fromFields fs := by
  have L : ∀ k, k ∈ RequiredAnalysis.fieldKeys →
      lookupField k (extras ++ fs) = lookupField k fs :=
    fun k hk => lookupField_append k extras fs
      (fun p hp hpk => (h p hp) (hpk ▸ hk))
  simp only [RequiredAnalysis.fromFields, reqF,
    L "type" (by simp [RequiredAnalysis.fieldKeys]),
    L "description" (by simp [RequiredAnalysis.fieldKeys]),
    L "importance" (by simp [RequiredAnalysis.fieldKeys])]

/-- Every key the `ResearchPlan` validator reads. -/
def ResearchPlan.fieldKeys : List String := ["search_queries", "required_analyses"]

theorem researchPlan_ignores_extras (extras fs : Fields)
    (h : ∀ p ∈ extras, p.1 ∉ ResearchPlan.fieldKeys) :
    ResearchPlan.fromFields (extras ++ fs) = ResearchPlan.fromFields fs := by
  have L : ∀ k, k ∈ ResearchPlan.fieldKeys →
      lookupField k (extras ++ fs) = lookupField k fs :=
    fun k hk => lookupField_append k extras fs
      (fun p hp hpk => (h p hp) (hpk ▸ hk))
  simp only [ResearchPlan.fromFields, reqF,
    L "search_queries" (by simp [ResearchPlan.fieldKeys]),
    L "required_analyses" (by simp [ResearchPlan.fieldKeys])]

/-- Every key the `SearchResultItem` validator reads. -/
def SearchResultItem.fieldKeys : List String := ["source", "title", "url", "content", "tweetId"]

theorem searchResultItem_ignores_extras (extras fs : Fields)
    (h : ∀ p ∈ extras, p.1 ∉ SearchResultItem.fieldKeys) :
    SearchResultItem.fromFields (extras ++ fs) = SearchResultItem.fromFields fs := by
  have L : ∀ k, k ∈ SearchResultItem.fieldKeys →
      lookupField k (extras ++ fs) = lookupField k fs :=
    fun k hk => lookupField_append k extras fs
      (fun p hp hpk => (h p hp) (hpk ▸ hk))
  simp only [SearchResultItem.fromFields, reqF, optF,
    L "source" (by simp [SearchResultItem.fieldKeys]),
    L "title" (by simp [SearchResultItem.fieldKeys]),
    L "url" (by simp [SearchResultItem.fieldKeys]),
    L "content" (by simp [SearchResultItem.fieldKeys]),
    L "tweetId" (by simp [SearchResultItem.fieldKeys])]

/-- Every key the `SearchStepResult` validator reads. -/
def SearchStepResult.fieldKeys : List String := ["type", "query", "results"]

theorem searchStepResult_ignores_extras (extras fs : Fields)
    (h : ∀ p ∈ extras, p.1 ∉ SearchStepResult.fieldKeys) :
    SearchStepResult.fromFields (extras ++ fs) = SearchStepResult.fromFields fs := by
  have L : ∀ k, k ∈ SearchStepResult.fieldKeys →
      lookupField k (extras ++ fs) = lookupField k fs :=
    fun k hk => lookupField_append k extras fs
      (fun p hp hpk => (h p hp) (hpk ▸ hk))
  simp only [SearchStepResult.fromFields, reqF,
    L "type" (by simp [SearchStepResult.fieldKeys]),
    L "query" (by simp [SearchStepResult.fieldKeys]),
    L "results" (by simp [SearchStepResult.fieldKeys])]

/-- Every key the `AnalysisFinding` validator reads. -/
def AnalysisFinding.fieldKeys : List String := ["insight", "evidence", "confidence"]

theorem analysisFinding_ignores_extras (extras fs : Fields)
    (h : ∀ p ∈ extras, p.1 ∉ AnalysisFinding.fieldKeys) :
    AnalysisFinding.fromFields (extras ++ fs) = AnalysisFinding.fromFields fs := by
  have L : ∀ k, k ∈ AnalysisFinding.fieldKeys →
      lookupField k (extras ++ fs) = lookupField k fs :=
    fun k hk => lookupField_append k extras fs
      (fun p hp hpk => (h p hp) (hpk ▸ hk))
  simp only [AnalysisFinding.fromFields, reqF,
    L "insight" (by simp [AnalysisFinding.fieldKeys]),
    L "evidence" (by simp [AnalysisFinding.fieldKeys]),
    L "confidence" (by simp [AnalysisFinding.fieldKeys])]

/-- Every key the `AnalysisResult` validator reads. -/
def AnalysisResult.fieldKeys : List String := ["findings", "implications", "limitations"]

theorem analysisResult_ignores_extras (extras fs : Fields)
    (h : ∀ p ∈ extras, p.1 ∉ AnalysisResult.fieldKeys) :
    AnalysisResult.fromFields (extras ++ fs) = AnalysisResult.fromFields fs := by
  have L : ∀ k, k ∈ AnalysisResult.fieldKeys →
      lookupField k (extras ++ fs) = lookupField k fs :=
    fun k hk => lookupField_append k extras fs
      (fun p hp hpk => (h p hp) (hpk ▸ hk))
  simp only [AnalysisResult.fromFields, reqF,
    L "findings" (by simp [AnalysisResult.fieldKeys]),
    L "implications" (by simp [AnalysisResult.fieldKeys]),
    L "limitations" (by simp [AnalysisResult.fieldKeys])]

/-- Every key the `Limitation` validator reads. -/
def Limitation.fieldKeys : List String := ["type", "description", "severity", "potential_solutions"]

theorem limitation_ignores_extras (extras fs : Fields)
    (h : ∀ p ∈ extras, p.1 ∉ Limitation.fieldKeys) :
    Limitation.fromFields (extras ++ fs) = Limitation.fromFields fs := by
  have L : ∀ k, k ∈ Limitation.fieldKeys →
      lookupField k (extras ++ fs) = lookupField k fs :=
    fun k hk => lookupField_append k extras fs
      (fun p hp hpk => (h p hp) (hpk ▸ hk))
  simp only [Limitation.fromFields, reqF,
    L "type" (by simp [Limitation.fieldKeys]),
    L "description" (by simp [Limitation.fieldKeys]),
    L "severity" (by simp [Limitation.fieldKeys]),
    L "potential_solutions" (by simp [Limitation.fieldKeys])]

/-- Every key the `KnowledgeGap` validator reads. -/
def KnowledgeGap.fieldKeys : List String := ["topic", "reason", "additional_queries"]

theorem knowledgeGap_ignores_extras (extras fs : Fields)
    (h : ∀ p ∈ extras, p.1 ∉ KnowledgeGap.fieldKeys) :
    KnowledgeGap.fromFields (extras ++ fs) = KnowledgeGap.fromFields fs := by
  have L : ∀ k, k ∈ KnowledgeGap.fieldKeys →
      lookupField k (extras ++ fs) = lookupField k fs :=
    fun k hk => lookupField_append k extras fs
      (fun p hp hpk => (h p hp) (hpk ▸ hk))
  simp only [KnowledgeGap.fromFields, reqF,
    L "topic" (by simp [KnowledgeGap.fieldKeys]),
    L "reason" (by simp [KnowledgeGap.fieldKeys]),
    L "additional_queries" (by simp [KnowledgeGap.fieldKeys])]

/-- Every key the `RecommendedFollowup` validator reads. -/
def RecommendedFollowup.fieldKeys : List String := ["action", "rationale", "priority"]

theorem recommendedFollowup_ignores_extras (extras fs : Fields)
    (h : ∀ p ∈ extras, p.1 ∉ RecommendedFollowup.fieldKeys) :
    RecommendedFollowup.fromFields (extras ++ fs) = RecommendedFollowup.fromFields fs := by
  have L : ∀ k, k ∈ RecommendedFollowup.fieldKeys →
      lookupField k (extras ++ fs) = lookupField k fs :=
    fun k hk => lookupField_append k extras fs
      (fun p hp hpk => (h p hp) (hpk ▸ hk))
  simp only [RecommendedFollowup.fromFields, reqF,
    L "action" (by simp [RecommendedFollowup.fieldKeys]),
    L "rationale" (by simp [RecommendedFollowup.fieldKeys]),
    L "priority" (by simp [RecommendedFollowup.fieldKeys])]

/-- Every key the `GapAnalysisResult` validator reads. -/
def GapAnalysisResult.fieldKeys : List String := ["limitations", "knowledge_gaps", "recommended_followup"]

theorem gapAnalysisResult_ignores_extras (extras fs : Fields)
    (h : ∀ p ∈ extras, p.1 ∉ GapAnalysisResult.fieldKeys) :
    GapAnalysisResult.fromFields (extras ++ fs) = GapAnalysisResult.fromFields fs := by
  have L : ∀ k, k ∈ GapAnalysisResult.fieldKeys →
      lookupField k (extras ++ fs) = lookupField k fs :=
    fun k hk => lookupField_append k extras fs
      (fun p hp hpk => (h p hp) (hpk ▸ hk))
  simp only [GapAnalysisResult.fromFields, reqF,
    L "limitations" (by simp [GapAnalysisResult.fieldKeys]),
    L "knowledge_gaps" (by simp [GapAnalysisResult.fieldKeys]),
    L "recommended_followup" (by simp [GapAnalysisResult.fieldKeys])]

/-- Every key the `KeyFinding` validator reads. -/
def KeyFinding.fieldKeys : List String := ["finding", "confidence", "supporting_evidence"]

theorem keyFinding_ignores_extras (extras fs : Fields)
    (h : ∀ p ∈ extras, p.1 ∉ KeyFinding.fieldKeys) :
    KeyFinding.fromFields (extras ++ fs) = KeyFinding.fromFields fs := by
  have L : ∀ k, k ∈ KeyFinding.fieldKeys →
      lookupField k (extras ++ fs) = lookupField k fs :=
    fun k hk => lookupField_append k extras fs
      (fun p hp hpk => (h p hp) (hpk ▸ hk))
  simp only [KeyFinding.fromFields, reqF,
    L "finding" (by simp [KeyFinding.fieldKeys]),
    L "confidence" (by simp [KeyFinding.fieldKeys]),
    L "supporting_evidence" (by simp [KeyFinding.fieldKeys])]

/-- Every key the `FinalSynthesisResult` validator reads. -/
def FinalSynthesisResult.fieldKeys : List String := ["key_findings", "remaining_uncertainties"]

theorem finalSynthesisResult_ignores_extras (extras fs : Fields)
    (h : ∀ p ∈ extras, p.1 ∉ FinalSynthesisResult.fieldKeys) :
    FinalSynthesisResult.fromFields (extras ++ fs) = FinalSynthesisResult.fromFields fs := by
  have L : ∀ k, k ∈ FinalSynthesisResult.fieldKeys →
      lookupField k (extras ++ fs) = lookupField k fs :=
    fun k hk => lookupField_append k extras fs
      (fun p hp hpk => (h p hp) (hpk ▸ hk))
  simp only [FinalSynthesisResult.fromFields, reqF,
    L "key_findings" (by simp [FinalSynthesisResult.fieldKeys]),
    L "remaining_uncertainties" (by simp [FinalSynthesisResult.fieldKeys])]

/-- Every key the `StepInfo` validator reads. -/
def StepInfo.fieldKeys : List String := ["id", "type", "details"]

theorem stepInfo_ignores_extras (extras fs : Fields)
    (h : ∀ p ∈ extras, p.1 ∉ StepInfo.fieldKeys) :
    StepInfo.fromFields (extras ++ fs) = StepInfo.fromFields fs := by
  have L : ∀ k, k ∈ StepInfo.fieldKeys →
      lookupField k (extras ++ fs) = lookupField k fs :=
    fun k hk => lookupField_append k extras fs
      (fun p hp hpk => (h p hp) (hpk ▸ hk))
  simp only [StepInfo.fromFields, reqF,
    L "id" (by simp [StepInfo.fieldKeys]),
    L "type" (by simp [StepInfo.fieldKeys]),
    L "details" (by simp [StepInfo.fieldKeys])]

/-- Every key the `StreamUpdateData` validator reads. -/
def StreamUpdateData.fieldKeys : List String := ["id", "type", "status", "title", "message", "timestamp", "overwrite", "plan", "totalSteps", "query", "results", "analysisType", "findings", "gaps", "recommendations", "uncertainties", "completedSteps", "isComplete"]

theorem streamUpdateData_ignores_extras (extras fs : Fields)
    (h : ∀ p ∈ extras, p.1 ∉ StreamUpdateData.fieldKeys) :
    StreamUpdateData.fromFields (extras ++ fs) = StreamUpdateData.fromFields fs := by
  have L : ∀ k, k ∈ StreamUpdateData.fieldKeys →
      lookupField k (extras ++ fs) = lookupField k fs :=
    fun k hk => lookupField_append k extras fs
      (fun p hp hpk => (h p hp) (hpk ▸ hk))
  simp only [StreamUpdateData.fromFields, reqF, optF, overwriteF,
    L "id" (by simp [StreamUpdateData.fieldKeys]),
    L "type" (by simp [StreamUpdateData.fieldKeys]),
    L "status" (by simp [StreamUpdateData.fieldKeys]),
    L "title" (by simp [StreamUpdateData.fieldKeys]),
    L "message" (by simp [StreamUpdateData.fieldKeys]),
    L "timestamp" (by simp [StreamUpdateData.fieldKeys]),
    L "overwrite" (by simp [StreamUpdateData.fieldKeys]),
    L "plan" (by simp [StreamUpdateData.fieldKeys]),
    L "totalSteps" (by simp [StreamUpdateData.fieldKeys]),
    L "query" (by simp [StreamUpdateData.fieldKeys]),
    L "results" (by simp [StreamUpdateData.fieldKeys]),
    L "analysisType" (by simp [StreamUpdateData.fieldKeys]),
    L "findings" (by simp [StreamUpdateData.fieldKeys]),
    L "gaps" (by simp [StreamUpdateData.fieldKeys]),
    L "recommendations" (by simp [StreamUpdateData.fieldKeys]),
    L "uncertainties" (by simp [StreamUpdateData.fieldKeys]),
    L "completedSteps" (by simp [StreamUpdateData.fieldKeys]),
    L "isComplete" (by simp [StreamUpdateData.fieldKeys])]

/-- Every key the `StreamUpdate` validator reads. -/
def StreamUpdate.fieldKeys : List String := ["type", "data"]

theorem streamUpdate_ignores_extras (extras fs : Fields)
    (h : ∀ p ∈ extras, p.1 ∉ StreamUpdate.fieldKeys) :
    StreamUpdate.fromFields (extras ++ fs) = StreamUpdate.fromFields fs := by
  have L : ∀ k, k ∈ StreamUpdate.fieldKeys →
      lookupField k (extras ++ fs) = lookupField k fs :=
    fun k hk => lookupField_append k extras fs
      (fun p hp hpk => (h p hp) (hpk ▸ hk))
  simp only [StreamUpdate.fromFields, reqF, updateTypeF,
    L "type" (by simp [StreamUpdate.fieldKeys]),
    L "data" (by simp [StreamUpdate.fieldKeys])]

/-! ### Claim-level helpers -/

/-- An `Except` result that represents successful validation. -/
def validationOk {α : Type} : Except ValidationError α → Prop
  | .ok _ => True
  | .error _ => False

theorem querySource_ofString_isSome (s : String) :
    (QuerySource.ofString s).isSome = true ↔
      s = "web" ∨ s = "academic" ∨ s = "x" ∨ s = "all" := by
  unfold QuerySource.ofString
  split_ifs <;> simp_all

theorem resultSource_ofString_isSome (s : String) :
    (ResultSource.ofString s).isSome = true ↔
      s = "web" ∨ s = "academic" ∨ s = "x" := by
  unfold ResultSource.ofString
  split_ifs <;> simp_all

theorem status_ofString_isSome (s : String) :
    (Status.ofString s).isSome = true ↔ s = "running" ∨ s = "completed" := by
  unfold Status.ofString
  split_ifs <;> simp_all

theorem updateTypeF_ok {fs : Fields} {v : String}
    (h : updateTypeF fs = .ok v) : v = "research_update" := by
  unfold updateTypeF at h
  repeat' split at h
  all_goals simp_all

/-- A sample progress-event payload used to instantiate theorems with
hypotheses at a concrete input. -/
def sampleData : StreamUpdateData :=
  ⟨"p1", "progress", .running, "Progress", "working", 5, some false,
   none, none, none, none, none, none, none, none, none, none, none⟩

/-- The concrete fields whose validation produces `sampleData`. -/
def sampleDataFields : Fields :=
  [("id", .str "p1"), ("type", .str "progress"), ("status", .str "running"),
   ("title", .str "Progress"), ("message", .str "working"),
   ("timestamp", .num 5)]

/-- A sample framed streaming message. -/
def sampleUpdate : StreamUpdate := ⟨"research_update", sampleData⟩

/-- Concrete `SearchQuery` fields used to instantiate theorems with
hypotheses at a concrete input. -/
def sampleQueryFields : Fields :=
  [("query", .str "q"), ("rationale", .str "r"), ("source", .str "web"),
   ("priority", .num ((2 : Int) : Rat))]

/-! ### The claims -/

/-- C1: for every record type in the schema layer and all valid field
assignments, constructing the record, serializing it to JSON and
deserializing that JSON reproduces an equal record. For `StreamUpdate` the
valid assignments are exactly those carrying the literal
`research_update` in `type`, which is the only value its validator admits. -/
theorem C1_construct_serialize_deserialize :
    (∀ r : SearchQuery, SearchQuery.fromJson r.toJson = .ok r) ∧
    (∀ r : RequiredAnalysis, RequiredAnalysis.fromJson r.toJson = .ok r) ∧
    (∀ r : ResearchPlan, ResearchPlan.fromJson r.toJson = .ok r) ∧
    (∀ r : SearchResultItem, SearchResultItem.fromJson r.toJson = .ok r) ∧
    (∀ r : SearchStepResult, SearchStepResult.fromJson r.toJson = .ok r) ∧
    (∀ r : AnalysisFinding, AnalysisFinding.fromJson r.toJson = .ok r) ∧
    (∀ r : AnalysisResult, AnalysisResult.fromJson r.toJson = .ok r) ∧
    (∀ r : Limitation, Limitation.fromJson r.toJson = .ok r) ∧
    (∀ r : KnowledgeGap, KnowledgeGap.fromJson r.toJson = .ok r) ∧
    (∀ r : RecommendedFollowup, RecommendedFollowup.fromJson r.toJson = .ok r) ∧
    (∀ r : GapAnalysisResult, GapAnalysisResult.fromJson r.toJson = .ok r) ∧
    (∀ r : KeyFinding, KeyFinding.fromJson r.toJson = .ok r) ∧
    (∀ r : FinalSynthesisResult, FinalSynthesisResult.fromJson r.toJson = .ok r) ∧
    (∀ r : StepInfo, StepInfo.fromJson r.toJson = .ok r) ∧
    (∀ r : StreamUpdateData, StreamUpdateData.fromJson r.toJson = .ok r) ∧
    (∀ r : StreamUpdate, r.type = "research_update" →
      StreamUpdate.fromJson r.toJson = .ok r) :=
  ⟨searchQuery_roundtrip, requiredAnalysis_roundtrip, researchPlan_roundtrip,
   searchResultItem_roundtrip, searchStepResult_roundtrip,
   analysisFinding_roundtrip, analysisResult_roundtrip, limitation_roundtrip,
   knowledgeGap_roundtrip, recommendedFollowup_roundtrip,
   gapAnalysisResult_roundtrip, keyFinding_roundtrip,
   finalSynthesisResult_roundtrip, stepInfo_roundtrip,
   streamUpdateData_roundtrip, streamUpdate_roundtrip⟩

/-- C1 witness: the round-trip law instantiated at a concrete
`StreamUpdate`, discharging the literal-`type` hypothesis. -/
theorem C1_streamUpdate_witness :
    StreamUpdate.fromJson sampleUpdate.toJson = .ok sampleUpdate :=
  C1_construct_serialize_deserialize.2.2.2.2.2.2.2.2.2.2.2.2.2.2.2
    sampleUpdate rfl

/-- C2: for every record type, construction succeeds only if every required
field is present (so omitting one fails with a `ValidationError`); the
`SearchQuery` example without `query` fails naming the missing field; and
construction of a `SearchQuery` succeeds whenever all required fields are
present with type-correct values. -/
theorem C2_required_fields :
    (∀ fs r, SearchQuery.fromFields fs = .ok r →
      (lookupField "query" fs).isSome = true ∧
      (lookupField "rationale" fs).isSome = true ∧
      (lookupField "source" fs).isSome = true ∧
      (lookupField "priority" fs).isSome = true) ∧
    (∀ fs r, RequiredAnalysis.fromFields fs = .ok r →
      (lookupField "type" fs).isSome = true ∧
      (lookupField "description" fs).isSome = true ∧
      (lookupField "importance" fs).isSome = true) ∧
    (∀ fs r, ResearchPlan.fromFields fs = .ok r →
      (lookupField "search_queries" fs).isSome = true ∧
      (lookupField "required_analyses" fs).isSome = true) ∧
    (∀ fs r, SearchResultItem.fromFields fs = .ok r →
      (lookupField "source" fs).isSome = true ∧
      (lookupField "title" fs).isSome = true ∧
      (lookupField "url" fs).isSome = true ∧
      (lookupField "content" fs).isSome = true) ∧
    (∀ fs r, SearchStepResult.fromFields fs = .ok r →
      (lookupField "type" fs).isSome = true ∧
      (lookupField "query" fs).isSome = true ∧
      (lookupField "results" fs).isSome = true) ∧
    (∀ fs r, AnalysisFinding.fromFields fs = .ok r →
      (lookupField "insight" fs).isSome = true ∧
      (lookupField "evidence" fs).isSome = true ∧
      (lookupField "confidence" fs).isSome = true) ∧
    (∀ fs r, AnalysisResult.fromFields fs = .ok r →
      (lookupField "findings" fs).isSome = true ∧
      (lookupField "implications" fs).isSome = true ∧
      (lookupField "limitations" fs).isSome = true) ∧
    (∀ fs r, Limitation.fromFields fs = .ok r →
      (lookupField "type" fs).isSome = true ∧
      (lookupField "description" fs).isSome = true ∧
      (lookupField "severity" fs).isSome = true ∧
      (lookupField "potential_solutions" fs).isSome = true) ∧
    (∀ fs r, KnowledgeGap.fromFields fs = .ok r →
      (lookupField "topic" fs).isSome = true ∧
      (lookupField "reason" fs).isSome = true ∧
      (lookupField "additional_queries" fs).isSome = true) ∧
    (∀ fs r, RecommendedFollowup.fromFields fs = .ok r →
      (lookupField "action" fs).isSome = true ∧
      (lookupField "rationale" fs).isSome = true ∧
      (lookupField "priority" fs).isSome = true) ∧
    (∀ fs r, GapAnalysisResult.fromFields fs = .ok r →
      (lookupField "limitations" fs).isSome = true ∧
      (lookupField "knowledge_gaps" fs).isSome = true ∧
      (lookupField "recommended_followup" fs).isSome = true) ∧
    (∀ fs r, KeyFinding.fromFields fs = .ok r →
      (lookupField "finding" fs).isSome = true ∧
      (lookupField "confidence" fs).isSome = true ∧
      (lookupField "supporting_evidence" fs).isSome = true) ∧
    (∀ fs r, FinalSynthesisResult.fromFields fs = .ok r →
      (lookupField "key_findings" fs).isSome = true ∧
      (lookupField "remaining_uncertainties" fs).isSome = true) ∧
    (∀ fs r, StepInfo.fromFields fs = .ok r →
      (lookupField "id" fs).isSome = true ∧
      (lookupField "type" fs).isSome = true ∧
      (lookupField "details" fs).isSome = true) ∧
    (∀ fs r, StreamUpdateData.fromFields fs = .ok r →
      (lookupField "id" fs).isSome = true ∧
      (lookupField "type" fs).isSome = true ∧
      (lookupField "status" fs).isSome = true ∧
      (lookupField "title" fs).isSome = true ∧
      (lookupField "message" fs).isSome = true ∧
      (lookupField "timestamp" fs).isSome = true) ∧
    (∀ fs r, StreamUpdate.fromFields fs = .ok r →
      (lookupField "data" fs).isSome = true) ∧
    (SearchQuery.fromFields
      [("rationale", .str "r"), ("source", .str "web"),
       ("priority", .num ((2 : Int) : Rat))] =
      .error ⟨"query", "field required"⟩) ∧
    (∀ (a b : String) (s : QuerySource) (i : Int),
      SearchQuery.fromFields
        [("query", .str a), ("rationale", .str b),
         ("source", .str s.toStr), ("priority", .num (i : Rat))] =
        .ok ⟨a, b, s, i⟩) :=
  ⟨fun _ _ h => searchQuery_ok_required h,
   fun _ _ h => requiredAnalysis_ok_required h,
   fun _ _ h => researchPlan_ok_required h,
   fun _ _ h => searchResultItem_ok_required h,
   fun _ _ h => searchStepResult_ok_required h,
   fun _ _ h => analysisFinding_ok_required h,
   fun _ _ h => analysisResult_ok_required h,
   fun _ _ h => limitation_ok_required h,
   fun _ _ h => knowledgeGap_ok_required h,
   fun _ _ h => recommendedFollowup_ok_required h,
   fun _ _ h => gapAnalysisResult_ok_required h,
   fun _ _ h => keyFinding_ok_required h,
   fun _ _ h => finalSynthesisResult_ok_required h,
   fun _ _ h => stepInfo_ok_required h,
   fun _ _ h => streamUpdateData_ok_required h,
   fun _ _ h => streamUpdate_ok_required h,
   rfl,
   by
     intro a b s i
     simp [SearchQuery.fromFields, reqF, lookupField, jStr, jEnum, jInt_int,
       querySource_ofString_toStr]⟩

/-- C2 witness: the necessity direction applied to a concrete successful
construction: all four required `SearchQuery` keys are present. -/
theorem C2_searchQuery_witness :
    (lookupField "query" sampleQueryFields).isSome = true ∧
    (lookupField "rationale" sampleQueryFields).isSome = true ∧
    (lookupField "source" sampleQueryFields).isSome = true ∧
    (lookupField "priority" sampleQueryFields).isSome = true :=
  C2_required_fields.1 sampleQueryFields ⟨"q", "r", .web, 2⟩ rfl

/-- C3: construction fails with a `ValidationError` exactly when `source`
falls outside the enumerated set: {web, academic, x, all} for `SearchQuery`,
{web, academic, x} for `SearchResultItem` and for `SearchStepResult` (whose
`type` field carries that enumeration); every member of the respective set
is accepted. -/
theorem C3_source_enum_membership :
    (∀ s : String, validationOk (SearchQuery.fromFields
      [("query", .str "q"), ("rationale", .str "r"), ("source", .str s),
       ("priority", .num ((2 : Int) : Rat))]) ↔
      s = "web" ∨ s = "academic" ∨ s = "x" ∨ s = "all") ∧
    (∀ s : String, validationOk (SearchResultItem.fromFields
      [("source", .str s), ("title", .str "t"), ("url", .str "u"),
       ("content", .str "c")]) ↔
      s = "web" ∨ s = "academic" ∨ s = "x") ∧
    (∀ s : String, validationOk (SearchStepResult.fromFields
      [("type", .str s), ("query", .obj sampleQueryFields),
       ("results", .arr [])]) ↔
      s = "web" ∨ s = "academic" ∨ s = "x") := by
  refine ⟨fun s => ?_, fun s => ?_, fun s => ?_⟩
  · rw [← querySource_ofString_isSome]
    cases hq : QuerySource.ofString s with
    | none => simp [SearchQuery.fromFields, reqF, lookupField, jStr, jEnum,
        hq, validationOk]
    | some v => simp [SearchQuery.fromFields, reqF, lookupField, jStr, jEnum,
        hq, jInt, validationOk]
  · rw [← resultSource_ofString_isSome]
    cases hq : ResultSource.ofString s with
    | none => simp [SearchResultItem.fromFields, reqF, optF, lookupField,
        jStr, jEnum, hq, validationOk]
    | some v => simp [SearchResultItem.fromFields, reqF, optF, lookupField,
        jStr, jEnum, hq, validationOk]
  · rw [← resultSource_ofString_isSome]
    cases hq : ResultSource.ofString s with
    | none => simp [SearchStepResult.fromFields, reqF, lookupField, jStr,
        jEnum, hq, validationOk]
    | some v => simp [SearchStepResult.fromFields, reqF, lookupField, jStr,
        jEnum, hq, validationOk, SearchQuery.fromJson, jList, parseItems,
        sampleQueryFields, SearchQuery.fromFields, QuerySource.ofString, jInt]

/-- C4: constructing or deserializing a `StreamUpdateData` succeeds exactly
when `status` is one of the literals `running` and `completed`; any other
status string, and a non-string status, fail with a `ValidationError`. -/
theorem C4_status_enum_membership :
    (∀ s : String, validationOk (StreamUpdateData.fromFields
      [("id", .str "p1"), ("type", .str "progress"), ("status", .str s),
       ("title", .str "T"), ("message", .str "M"), ("timestamp", .num 5)]) ↔
      s = "running" ∨ s = "completed") ∧
    (StreamUpdateData.fromFields
      [("id", .str "p1"), ("type", .str "progress"), ("status", .num 1),
       ("title", .str "T"), ("message", .str "M"), ("timestamp", .num 5)] =
      .error ⟨"status", "string expected"⟩) := by
  constructor
  · intro s
    rw [← status_ofString_isSome]
    cases hq : Status.ofString s with
    | none => simp [StreamUpdateData.fromFields, reqF, optF, overwriteF,
        lookupField, jStr, jNum, jEnum, hq, validationOk]
    | some v => simp [StreamUpdateData.fromFields, reqF, optF, overwriteF,
        lookupField, jStr, jNum, jEnum, hq, validationOk]
  · rfl

/-- C5: every constructible `StreamUpdate` carries the literal
`research_update` in `type` and serializes it as that literal; omitting
`type` at construction defaults it to the literal; any other value is
rejected with a `ValidationError`. -/
theorem C5_streamUpdate_type_literal :
    (∀ fs u, StreamUpdate.fromFields fs = .ok u →
      u.type = "research_update" ∧
      lookupField "type" u.toFields = some (.str "research_update")) ∧
    (∀ d : StreamUpdateData,
      StreamUpdate.fromFields [("data", d.toJson)] =
        .ok ⟨"research_update", d⟩) ∧
    (∀ (s : String) (d : StreamUpdateData), s ≠ "research_update" →
      StreamUpdate.fromFields [("type", .str s), ("data", d.toJson)] =
        .error ⟨"type", "unexpected value"⟩) := by
  refine ⟨?_, ?_, ?_⟩
  · intro fs u h
    unfold StreamUpdate.fromFields at h
    repeat' split at h
    any_goals cases h
    have hty := updateTypeF_ok (by assumption)
    exact ⟨hty, by simp [StreamUpdate.toFields, lookupField, hty]⟩
  · intro d
    simp [StreamUpdate.fromFields, updateTypeF, reqF, lookupField,
      streamUpdateData_roundtrip]
  · intro s d hs
    simp [StreamUpdate.fromFields, updateTypeF, lookupField, hs]

/-- C5 witness: the rejection branch at the concrete value `foo`. -/
theorem C5_reject_witness :
    StreamUpdate.fromFields
      [("type", .str "foo"), ("data", sampleData.toJson)] =
      .error ⟨"type", "unexpected value"⟩ :=
  C5_streamUpdate_type_literal.2.2 "foo" sampleData (by decide)

/-- C6: numeric fields enforce type-correctness only, never range: the
confidence fields of `AnalysisFinding` and `KeyFinding` accept every
rational number (hence 0.0, 1.0 and the out-of-range 1.5) while rejecting
non-numeric values, and the priority, importance and severity integer
fields accept every integer, including negative values. -/
theorem C6_numeric_fields_type_only :
    (∀ q : Rat, AnalysisFinding.fromFields
      [("insight", .str "i"), ("evidence", .arr []), ("confidence", .num q)] =
      .ok ⟨"i", [], q⟩) ∧
    (∀ q : Rat, KeyFinding.fromFields
      [("finding", .str "f"), ("confidence", .num q),
       ("supporting_evidence", .arr [])] = .ok ⟨"f", q, []⟩) ∧
    (AnalysisFinding.fromFields
      [("insight", .str "i"), ("evidence", .arr []),
       ("confidence", .str "high")] =
      .error ⟨"confidence", "number expected"⟩) ∧
    (∀ i : Int, SearchQuery.fromFields
      [("query", .str "q"), ("rationale", .str "r"), ("source", .str "web"),
       ("priority", .num (i : Rat))] = .ok ⟨"q", "r", .web, i⟩) ∧
    (∀ i : Int, RequiredAnalysis.fromFields
      [("type", .str "SWOT"), ("description", .str "d"),
       ("importance", .num (i : Rat))] = .ok ⟨"SWOT", "d", i⟩) ∧
    (∀ i : Int, Limitation.fromFields
      [("type", .str "bias"), ("description", .str "d"),
       ("severity", .num (i : Rat)), ("potential_solutions", .arr [])] =
      .ok ⟨"bias", "d", i, []⟩) := by
  refine ⟨fun q => ?_, fun q => ?_, rfl, fun i => ?_, fun i => ?_, fun i => ?_⟩ <;>
    simp [AnalysisFinding.fromFields, KeyFinding.fromFields,
      SearchQuery.fromFields, RequiredAnalysis.fromFields,
      Limitation.fromFields, reqF, lookupField, jStr, jNum, jEnum,
      QuerySource.ofString, jInt_int, jList, parseItems]

/-- C7: for every record type, keys not recognized by the schema are
ignored during validation: adding any unrecognized keys to an object leaves
the validation result unchanged, so an object with all required fields plus
extras still deserializes successfully. -/
theorem C7_unrecognized_fields_ignored :
    (∀ extras fs, (∀ p ∈ extras, p.1 ∉ SearchQuery.fieldKeys) →
      SearchQuery.fromFields (extras ++ fs) = SearchQuery.fromFields fs) ∧
    (∀ extras fs, (∀ p ∈ extras, p.1 ∉ RequiredAnalysis.fieldKeys) →
      RequiredAnalysis.fromFields (extras ++ fs) =
        RequiredAnalysis.fromFields fs) ∧
    (∀ extras fs, (∀ p ∈ extras, p.1 ∉ ResearchPlan.fieldKeys) →
      ResearchPlan.fromFields (extras ++ fs) = ResearchPlan.fromFields fs) ∧
    (∀ extras fs, (∀ p ∈ extras, p.1 ∉ SearchResultItem.fieldKeys) →
      SearchResultItem.fromFields (extras ++ fs) =
        SearchResultItem.fromFields fs) ∧
    (∀ extras fs, (∀ p ∈ extras, p.1 ∉ SearchStepResult.fieldKeys) →
      SearchStepResult.fromFields (extras ++ fs) =
        SearchStepResult.fromFields fs) ∧
    (∀ extras fs, (∀ p ∈ extras, p.1 ∉ AnalysisFinding.fieldKeys) →
      AnalysisFinding.fromFields (extras ++ fs) =
        AnalysisFinding.fromFields fs) ∧
    (∀ extras fs, (∀ p ∈ extras, p.1 ∉ AnalysisResult.fieldKeys) →
      AnalysisResult.fromFields (extras ++ fs) =
        AnalysisResult.fromFields fs) ∧
    (∀ extras fs, (∀ p ∈ extras, p.1 ∉ Limitation.fieldKeys) →
      Limitation.fromFields (extras ++ fs) = Limitation.fromFields fs) ∧
    (∀ extras fs, (∀ p ∈ extras, p.1 ∉ KnowledgeGap.fieldKeys) →
      KnowledgeGap.fromFields (extras ++ fs) = KnowledgeGap.fromFields fs) ∧
    (∀ extras fs, (∀ p ∈ extras, p.1 ∉ RecommendedFollowup.fieldKeys) →
      RecommendedFollowup.fromFields (extras ++ fs) =
        RecommendedFollowup.fromFields fs) ∧
    (∀ extras fs, (∀ p ∈ extras, p.1 ∉ GapAnalysisResult.fieldKeys) →
      GapAnalysisResult.fromFields (extras ++ fs) =
        GapAnalysisResult.fromFields fs) ∧
    (∀ extras fs, (∀ p ∈ extras, p.1 ∉ KeyFinding.fieldKeys) →
      KeyFinding.fromFields (extras ++ fs) = KeyFinding.fromFields fs) ∧
    (∀ extras fs, (∀ p ∈ extras, p.1 ∉ FinalSynthesisResult.fieldKeys) →
      FinalSynthesisResult.fromFields (extras ++ fs) =
        FinalSynthesisResult.fromFields fs) ∧
    (∀ extras fs, (∀ p ∈ extras, p.1 ∉ StepInfo.fieldKeys) →
      StepInfo.fromFields (extras ++ fs) = StepInfo.fromFields fs) ∧
    (∀ extras fs, (∀ p ∈ extras, p.1 ∉ StreamUpdateData.fieldKeys) →
      StreamUpdateData.fromFields (extras ++ fs) =
        StreamUpdateData.fromFields fs) ∧
    (∀ extras fs, (∀ p ∈ extras, p.1 ∉ StreamUpdate.fieldKeys) →
      StreamUpdate.fromFields (extras ++ fs) = StreamUpdate.fromFields fs) :=
  ⟨searchQuery_ignores_extras, requiredAnalysis_ignores_extras,
   researchPlan_ignores_extras, searchResultItem_ignores_extras,
   searchStepResult_ignores_extras, analysisFinding_ignores_extras,
   analysisResult_ignores_extras, limitation_ignores_extras,
   knowledgeGap_ignores_extras, recommendedFollowup_ignores_extras,
   gapAnalysisResult_ignores_extras, keyFinding_ignores_extras,
   finalSynthesisResult_ignores_extras, stepInfo_ignores_extras,
   streamUpdateData_ignores_extras, streamUpdate_ignores_extras⟩

/-- C7 witness: an unrecognized key added to a concrete valid `SearchQuery`
object leaves the (successful) validation result unchanged. -/
theorem C7_extras_witness :
    SearchQuery.fromFields
      ([("futureField", .bool true)] ++ sampleQueryFields) =
      SearchQuery.fromFields sampleQueryFields :=
  C7_unrecognized_fields_ignored.1 [("futureField", .bool true)]
    sampleQueryFields (by decide)

/-- C8: the coupling between `SearchResultItem.tweetId` and `source = x`
is advisory only: `web` and `academic` results accept a present `tweetId`,
and an `x` result constructs without one. -/
theorem C8_tweetId_uncoupled :
    (∀ tid : String, SearchResultItem.fromFields
      [("source", .str "web"), ("title", .str "t"), ("url", .str "u"),
       ("content", .str "c"), ("tweetId", .str tid)] =
      .ok ⟨.web, "t", "u", "c", some tid⟩) ∧
    (∀ tid : String, SearchResultItem.fromFields
      [("source", .str "academic"), ("title", .str "t"), ("url", .str "u"),
       ("content", .str "c"), ("tweetId", .str tid)] =
      .ok ⟨.academic, "t", "u", "c", some tid⟩) ∧
    (SearchResultItem.fromFields
      [("source", .str "x"), ("title", .str "t"), ("url", .str "u"),
       ("content", .str "c")] = .ok ⟨.x, "t", "u", "c", none⟩) := by
  refine ⟨fun tid => ?_, fun tid => ?_, rfl⟩ <;>
    simp [SearchResultItem.fromFields, reqF, optF, lookupField, jStr, jEnum,
      ResultSource.ofString, Json.isNull]

/-- C9: `StreamUpdateData.type` is an unconstrained string: construction
succeeds for every string value of `type`, given the other required
fields. -/
theorem C9_data_type_unconstrained (s : String) :
    StreamUpdateData.fromFields
      [("id", .str "p1"), ("type", .str s), ("status", .str "running"),
       ("title", .str "T"), ("message", .str "M"), ("timestamp", .num 5)] =
      .ok ⟨"p1", s, .running, "T", "M", 5, some false, none, none, none,
        none, none, none, none, none, none, none, none⟩ := by
  simp [StreamUpdateData.fromFields, reqF, optF, overwriteF, lookupField,
    jStr, jNum, jEnum, Status.ofString]

/-- C10: omitting `overwrite` at construction is not an error: every record
validated from an object without an `overwrite` key has `overwrite` equal
to `False` (the declared default). -/
theorem C10_overwrite_defaults_false (fs : Fields) (r : StreamUpdateData)
    (hnone : lookupField "overwrite" fs = none)
    (h : StreamUpdateData.fromFields fs = .ok r) :
    r.overwrite = some false := by
  have hov : overwriteF fs = .ok (some false) := by simp [overwriteF, hnone]
  unfold StreamUpdateData.fromFields at h
  rw [hov] at h
  repeat' split at h
  any_goals cases h
  all_goals simp_all

/-- C10 witness: the default applied at a concrete object without an
`overwrite` key. -/
theorem C10_default_witness : sampleData.overwrite = some false :=
  C10_overwrite_defaults_false sampleDataFields sampleData rfl rfl
